import Mathlib

/-!
Verification of the chirpy authentication and session-lifecycle subsystem.

The definitions below are a shallow embedding of the Go source:
`internal/auth/jwt.go` (MakeJWT, ValidateJWT), the auth helpers
(GetAPIKey), and the session handlers in `main.go` (handleLogin,
handleRefresh, handleRevoke, handleChirpByID).  Machine times and
durations are modelled as `Int` nanoseconds (Go `time.Duration` is an
int64 nanosecond count; the `time.Duration(k) * time.Second` product
wraps at 64 bits, which `int64Wrap` reproduces).  Cryptographic
primitives (HMAC-SHA256 signatures, bcrypt hashes, UUID string
rendering) are modelled symbolically, in the standard Dolev-Yao style:
a signed compact JWT is a constructor applied to its claims and its
signing key, so two byte strings are equal exactly when they were built
the same way.  This captures the collision-freeness the real
primitives provide.
-/

namespace Chirpy

/-- Model of `github.com/google/uuid`: a UUID is an opaque 128-bit value;
only equality, the nil value, canonical string rendering and parsing are
used by the source. -/
structure UUID where
  val : Nat
deriving DecidableEq, Repr

/-- `uuid.Nil`, the zero UUID returned by `ValidateJWT` on every error path. -/
def UUID.nil : UUID := ⟨0⟩

/-- Symbolic model of the strings that can appear in the JWT `sub` claim:
either the canonical rendering `userID.String()` of some UUID, or any
other string (which `uuid.Parse` rejects).  `uuid.UUID.String` is
injective, which the constructor form gives us for free. -/
inductive SubjectStr where
  | uuidStr (u : UUID)
  | other (s : String)
deriving DecidableEq, Repr

/-- Model of `uuid.Parse` restricted to the strings that occur as subject
claims: it inverts `uuid.UUID.String` and fails on everything else. -/
def uuidParse : SubjectStr → Option UUID
  | .uuidStr u => some u
  | .other _ => none

/-- The `jwt.RegisteredClaims` populated by `MakeJWT`: issuer, issued-at,
expires-at (Unix nanoseconds) and subject. -/
structure RegisteredClaims where
  issuer : String
  issuedAt : Int
  expiresAt : Int
  subject : SubjectStr
deriving DecidableEq, Repr

/-- Symbolic model of Go byte/character strings in key position: either raw
bytes of an ordinary string (e.g. `[]byte(tokenSecret)`), or the bytes of
a compact-serialized HS256 JWT, determined by its claims and the HMAC key
it was signed with.  A serialized token strictly contains its own
signature, so it can never coincide with the key that produced that
signature; structurally, `jwtCompact c k` is never equal to `k`. -/
inductive GoStr where
  | raw (s : String)
  | jwtCompact (claims : RegisteredClaims) (key : GoStr)
deriving DecidableEq, Repr

/-- The error values surfaced by `ValidateJWT`: the `jwt/v5` parse and
validation errors, plus the `uuid.Parse` failure on a malformed subject. -/
inductive GoError where
  | jwtMalformed
  | jwtSignatureInvalid
  | jwtExpired
  | jwtUsedBeforeIssued
  | jwtInvalidClaims
  | uuidInvalid
deriving DecidableEq, Repr

/-- `time.Hour` in nanoseconds. -/
def hourNs : Int := 3600 * 1000000000

/-- `time.Minute` in nanoseconds. -/
def minuteNs : Int := 60 * 1000000000

/-- 60 days (`60 * 24 * time.Hour`), the refresh-token lifetime, in
nanoseconds. -/
def day60Ns : Int := 60 * 24 * hourNs

/-- Two's-complement wrap-around of an unbounded integer to int64, the
representation of Go `time.Duration`. -/
def int64Wrap (x : Int) : Int := (x + 2 ^ 63) % 2 ^ 64 - 2 ^ 63

/-- `time.Duration(k) * time.Second`: seconds to nanoseconds with int64
overflow semantics. -/
def durationFromSeconds (k : Int) : Int := int64Wrap (k * 1000000000)

/-- Embedding of `MakeJWT` (jwt.go lines 9-19): builds the registered
claims with issuer `"chirpy"`, issued-at `now`, expires-at
`now + expiresIn`, subject `userID.String()`, and signs them HS256 with
`[]byte(tokenSecret)`.  The only Go error path is claim serialization
failure, which cannot occur for this fixed claim shape, so the model
returns the signed string directly. -/
def MakeJWT (userID : UUID) (tokenSecret : String) (expiresIn : Int) (now : Int) : GoStr :=
  .jwtCompact
    { issuer := "chirpy"
      issuedAt := now
      expiresAt := now + expiresIn
      subject := .uuidStr userID }
    (.raw tokenSecret)

/-- Embedding of `jwt.ParseWithClaims` from `golang-jwt/jwt/v5` for HS256
tokens, with `key` the value returned by the caller-supplied keyfunc:
structural decode, then signature verification against `key`, then
registered-claim validation (`exp` strictly in the future, `iat` not in
the future).  In v5 the returned token is `Valid` exactly when no error
is returned, so the result is an `Except`. -/
def parseWithClaims (tokenString : GoStr) (key : GoStr) (now : Int) :
    Except GoError RegisteredClaims :=
  match tokenString with
  | .raw _ => .error .jwtMalformed
  | .jwtCompact claims sigKey =>
    if key ≠ sigKey then .error .jwtSignatureInvalid
    else if claims.expiresAt ≤ now then .error .jwtExpired
    else if now < claims.issuedAt then .error .jwtUsedBeforeIssued
    else .ok claims

/-- Embedding of `ValidateJWT` (jwt.go lines 21-41) exactly as written:
the keyfunc returns `[]byte(tokenString)` — the token string itself, not
`[]byte(tokenSecret)` — so the parse step verifies the signature against
the serialized token rather than the shared secret.  On any parse error
the pair `(uuid.Nil, err)` is returned; the explicit `!token.Valid`
branch of the source is unreachable under jwt/v5 (valid iff no error)
and maps to the error case of `parseWithClaims`.  Finally the subject is
fed to `uuid.Parse`. -/
def ValidateJWT (tokenString : GoStr) (tokenSecret : String) (now : Int) :
    UUID × Option GoError :=
  match parseWithClaims tokenString tokenString now with
  | .error e => (UUID.nil, some e)
  | .ok claims =>
    match uuidParse claims.subject with
    | none => (UUID.nil, some .uuidInvalid)
    | some userID => (userID, none)

/-- The expires-at claim of an access token (0 for a non-token string);
used to state token-lifetime bounds. -/
def tokenExpiresAt : GoStr → Int
  | .raw _ => 0
  | .jwtCompact claims _ => claims.expiresAt

/-- Modelled from the spec: `auth.HashPassword` (PasswordHasher.hash,
spec section 4.1) is not under src/; bcrypt is modelled as a symbolic
injective one-way tag over the plaintext. -/
def HashPassword (plaintext : String) : String :=
  "bcrypt$" ++ plaintext

/-- Modelled from the spec: `auth.CheckPasswordHash`
(PasswordHasher.verify, spec section 4.1) is not under src/; it returns
true exactly when the stored hash is the hash of the supplied plaintext.
The Go pair (match, err) collapses to a Bool because `handleLogin`
treats a non-nil error and a false match identically. -/
def CheckPasswordHash (plaintext hashedPassword : String) : Bool :=
  hashedPassword == HashPassword plaintext

/-- A row of the `refresh_tokens` table (migration in the repository:
token primary key, nullable user_id, created_at, updated_at, expires_at,
nullable revoked_at).  Times are Unix nanoseconds. -/
structure RefreshTokenRow where
  userId : Option UUID
  createdAt : Int
  updatedAt : Int
  expiresAt : Int
  revokedAt : Option Int
deriving DecidableEq, Repr

/-- A row of the `users` table, restricted to the fields the session
subsystem reads. -/
structure User where
  id : UUID
  email : String
  hashedPassword : String
deriving DecidableEq, Repr

/-- A row of the `chirps` table, restricted to the fields
`handleChirpByID` reads. -/
structure ChirpRow where
  id : UUID
  userId : UUID
  body : String
deriving DecidableEq, Repr

/-- The database state visible to the session handlers: the users table,
the refresh_tokens table (an association list keyed by the token
string), and the chirps table. -/
structure DB where
  users : List User
  refreshTokens : List (String × RefreshTokenRow)
  chirps : List ChirpRow
deriving DecidableEq, Repr

/-- Embedding of the `GetUserByEmail` query (sql/queries/users.sql):
select the user whose email matches, `sql.ErrNoRows` becoming `none`. -/
def getUserByEmail (db : DB) (email : String) : Option User :=
  db.users.find? (fun u => u.email == email)

/-- Modelled from the spec: the `GetRefreshToken` query is not under
src/; per spec section 4.3 it fetches the refresh-token row by token
string, `none` when absent. -/
def getRefreshToken (db : DB) (token : String) : Option RefreshTokenRow :=
  (db.refreshTokens.find? (fun kv => kv.1 == token)).map (fun kv => kv.2)

/-- Modelled from the spec: the `GetUserFromRefreshToken` query is not
under src/; per spec section 4.3 (resolveOwner) it resolves the owning
user of a token regardless of its revoked/expired state, `none` when the
token or the user row is absent. -/
def getUserFromRefreshToken (db : DB) (token : String) : Option User :=
  match getRefreshToken db token with
  | none => none
  | some row =>
    match row.userId with
    | none => none
    | some uid => db.users.find? (fun u => u.id == uid)

/-- Modelled from the spec: the `CreateRefreshToken` query is not under
src/; per spec section 4.3 and the migration it inserts a row keyed by
the token string with created_at and updated_at defaulted to now,
the caller-supplied expires_at, and null revoked_at; the primary-key
constraint makes insertion of an existing token fail (`none`). -/
def createRefreshToken (db : DB) (token : String) (userId : UUID)
    (expiresAt : Int) (now : Int) : Option DB :=
  if (db.refreshTokens.find? (fun kv => kv.1 == token)).isSome then none
  else
    some { db with
      refreshTokens :=
        (token,
          { userId := some userId
            createdAt := now
            updatedAt := now
            expiresAt := expiresAt
            revokedAt := none }) :: db.refreshTokens }

/-- Modelled from the spec: the `RevokeRefreshToken` query is not under
src/; per spec section 4.3 it is an UPDATE setting revoked_at and
updated_at on the matching row, a no-op (zero rows affected, no error)
when the token is absent. -/
def revokeRefreshToken (db : DB) (token : String) (now : Int) : DB :=
  { db with
    refreshTokens := db.refreshTokens.map (fun kv =>
      if kv.1 == token then
        (kv.1, { kv.2 with revokedAt := some now, updatedAt := now })
      else kv) }

/-- The JSON body of `/api/login` (main.go loginRequest):
`expires_in_seconds` is an optional integer field. -/
structure LoginRequest where
  email : String
  password : String
  expiresInSeconds : Option Int
deriving DecidableEq, Repr

/-- The externally visible outcome of a handler: an error JSON body with
an HTTP status, a login payload, a refresh payload, or 204 No Content.
Success payloads are restricted to the session-relevant fields. -/
inductive Response where
  | err (status : Nat) (msg : String)
  | loginOk (userId : UUID) (email : String) (token : GoStr) (refreshToken : String)
  | refreshOk (token : GoStr)
  | noContent
deriving DecidableEq, Repr

/-- Embedding of the access-token TTL computation in `handleLogin`
(main.go lines 253-259): start from `time.Hour`; when
`expires_in_seconds` is supplied, convert it to a Duration and take it
whenever it is strictly smaller than one hour — including zero and
negative values. -/
def computeExpires (expiresInSeconds : Option Int) : Int :=
  match expiresInSeconds with
  | none => hourNs
  | some k =>
    let requested := durationFromSeconds k
    if requested < hourNs then requested else hourNs

/-- Embedding of `handleLogin` (main.go lines 228-291), after JSON
decoding: look up the user by email (401 with a uniform message when
absent), verify the password (the same 401 on mismatch or hash error),
compute the TTL, mint the access token, generate a refresh token
(`auth.MakeRefreshToken` is random; the model takes the generated string
`freshToken` as an input), and insert the refresh row with
expires_at = now + 60 days.  The MakeJWT serialization-error branch is
unreachable in the model (see `MakeJWT`). -/
def handleLogin (db : DB) (req : LoginRequest) (freshToken : String)
    (jwtSecret : String) (now : Int) : Response × DB :=
  match getUserByEmail db req.email with
  | none => (.err 401 "incorrect email or password", db)
  | some user =>
    if CheckPasswordHash req.password user.hashedPassword = false then
      (.err 401 "incorrect email or password", db)
    else
      let expires := computeExpires req.expiresInSeconds
      let token := MakeJWT user.id jwtSecret expires now
      match createRefreshToken db freshToken user.id (now + day60Ns) now with
      | none => (.err 500 "failed to store refresh token", db)
      | some db2 => (.loginOk user.id user.email token freshToken, db2)

/-- Embedding of `handleRefresh` (main.go lines 293-321), after the
bearer token has been extracted: resolve the owner (401 when unknown),
fetch the row, and reject with 401 exactly when the row is absent or —
reproducing the Go operator precedence at line 310,
`err != nil || !tokenRow.RevokedAt.Valid && tokenRow.ExpiresAt.Before(time.Now())`
— when the row is NOT revoked AND is past its expiry.  Otherwise mint a
fresh one-hour access token.  No database write occurs on any path. -/
def handleRefresh (db : DB) (refreshToken : String) (jwtSecret : String)
    (now : Int) : Response × DB :=
  match getUserFromRefreshToken db refreshToken with
  | none => (.err 401 "invalid refresh token", db)
  | some user =>
    match getRefreshToken db refreshToken with
    | none => (.err 401 "refresh token expired or revoked", db)
    | some row =>
      if row.revokedAt = none ∧ row.expiresAt < now then
        (.err 401 "refresh token expired or revoked", db)
      else
        (.refreshOk (MakeJWT user.id jwtSecret hourNs now), db)

/-- Embedding of `handleRevoke` (main.go lines 323-349), after the
bearer token has been extracted: run the revoke UPDATE (which cannot
fail in the model short of storage errors) and answer 204 No Content. -/
def handleRevoke (db : DB) (refreshToken : String) (now : Int) :
    Response × DB :=
  (.noContent, revokeRefreshToken db refreshToken now)

/-- Embedding of the chirp lookup `GetChirp` used by `handleChirpByID`;
the chirps queries are not under src/, but the operation is a plain
primary-key SELECT, `sql.ErrNoRows` becoming `none`. -/
def getChirp (db : DB) (chirpID : UUID) : Option ChirpRow :=
  db.chirps.find? (fun c => c.id == chirpID)

/-- Embedding of the `DeleteChirp` query used by `handleChirpByID`: a
DELETE by primary key. -/
def deleteChirp (db : DB) (chirpID : UUID) : DB :=
  { db with chirps := db.chirps.filter (fun c => ¬ c.id == chirpID) }

/-- Embedding of the DELETE branch of `handleChirpByID` (main.go lines
468-499), after the requester has been authenticated as `userID`: fetch
the chirp (404 when absent), answer 403 "forbidden" when the stored
owner differs from the requester, and otherwise delete and answer 204. -/
def handleChirpDelete (db : DB) (chirpID : UUID) (userID : UUID) :
    Response × DB :=
  match getChirp db chirpID with
  | none => (.err 404 "chirp not found", db)
  | some chirp =>
    if chirp.userId ≠ userID then (.err 403 "forbidden", db)
    else (.noContent, deleteChirp db chirpID)

/-- The error values returned by `GetAPIKey`: `missing` is the Go error
"missing authorization header" (the MissingCredential kind), `malformed`
is "invalid authorization header format" (the MalformedCredential
kind). -/
inductive CredError where
  | missing
  | malformed
deriving DecidableEq, Repr

/-- Model of `http.Header.Get`: the first value stored under the
(canonicalized) key, or the empty string when the header is absent —
Go conflates an absent header with a present-but-empty one. -/
def headerGet (headers : List (String × String)) (key : String) : String :=
  match headers.find? (fun kv => kv.1 == key) with
  | some kv => kv.2
  | none => ""

/-- Model of Go `strings.Split(s, " ")` on the character list: cut at
every single space, keeping empty fields, so that splitting the empty
string yields one empty field.  This matches `strings.Split` exactly for
a one-character separator. -/
def splitSpaceAux : List Char → List Char → List String
  | [], acc => [String.mk acc.reverse]
  | c :: rest, acc =>
    if c = ' ' then String.mk acc.reverse :: splitSpaceAux rest []
    else splitSpaceAux rest (c :: acc)

/-- Go `strings.Split(s, " ")`. -/
def splitSpace (s : String) : List String := splitSpaceAux s.data []

/-- Go `strings.TrimSpace`: drop whitespace from both ends. -/
def trimSpace (s : String) : String :=
  String.mk (((s.data.dropWhile Char.isWhitespace).reverse.dropWhile
    Char.isWhitespace).reverse)

/-- Embedding of `GetAPIKey` (internal/auth, unnamed part_000): read the
Authorization header (missing when empty), split on single spaces with
`strings.Split`, require exactly two parts whose first is the literal
`"ApiKey"`, and return the second part with surrounding whitespace
trimmed (`strings.TrimSpace`). -/
def GetAPIKey (headers : List (String × String)) : Except CredError String :=
  let authHeader := headerGet headers "Authorization"
  if authHeader == "" then .error .missing
  else
    match splitSpace authHeader with
    | [scheme, key] =>
      if scheme == "ApiKey" then .ok (trimSpace key) else .error .malformed
    | _ => .error .malformed

/-- Claim C7 exactly as the spec states it, for comparison with the
source: MissingCredential when the header is absent, MalformedCredential
when the value is not exactly two single-space-separated tokens with the
exact scheme `"ApiKey"` OR when the key value is empty, and otherwise
the key string. -/
def GetAPIKeyClaimed (headers : List (String × String)) : Except CredError String :=
  let authHeader := headerGet headers "Authorization"
  if authHeader == "" then .error .missing
  else
    let parts := splitSpace authHeader
    if parts.length ≠ 2 ∨ parts.getD 0 "" ≠ "ApiKey" then .error .malformed
    else if parts.getD 1 "" = "" then .error .malformed
    else .ok (parts.getD 1 "")

/-- Claim C7 as amended: the same behaviour without the empty-key
failure, the returned key being the whitespace-trimmed second token
(possibly empty). -/
def GetAPIKeyAmended (headers : List (String × String)) : Except CredError String :=
  let authHeader := headerGet headers "Authorization"
  if authHeader == "" then .error .missing
  else
    let parts := splitSpace authHeader
    if parts.length ≠ 2 ∨ parts.getD 0 "" ≠ "ApiKey" then .error .malformed
    else .ok (trimSpace (parts.getD 1 ""))

/-- Access-token TTL exactly as claim C4 states it: min(requestedTTL,
1 hour) when the requested TTL is supplied and positive, one hour
otherwise (absent, zero or negative). -/
def claimedLoginTTL (expiresInSeconds : Option Int) : Int :=
  match expiresInSeconds with
  | none => hourNs
  | some k =>
    if 0 < k then min (durationFromSeconds k) hourNs else hourNs

/-- Access-token TTL as claim C4 must be amended: min(requestedTTL,
1 hour) whenever a TTL is supplied, with no positivity guard. -/
def amendedLoginTTL (expiresInSeconds : Option Int) : Int :=
  match expiresInSeconds with
  | none => hourNs
  | some k => min (durationFromSeconds k) hourNs

/-- A registered user whose password is the bcrypt hash of "right";
used to instantiate the handler theorems on concrete states. -/
def userA : User :=
  { id := ⟨1⟩, email := "a@x.com", hashedPassword := HashPassword "right" }

/-- A chirp owned by `userA`. -/
def chirp0 : ChirpRow := { id := ⟨10⟩, userId := ⟨1⟩, body := "hello" }

/-- A concrete database state: one registered user, one live (unrevoked,
unexpired) refresh token "tok" owned by that user, one chirp. -/
def db0 : DB :=
  { users := [userA]
    refreshTokens :=
      [("tok",
        { userId := some ⟨1⟩
          createdAt := 0
          updatedAt := 0
          expiresAt := 100
          revokedAt := none })]
    chirps := [chirp0] }

theorem jwtCompact_ne_key (c : RegisteredClaims) (k : GoStr) :
    GoStr.jwtCompact c k ≠ k := by
  induction k with
  | raw s => intro h; exact GoStr.noConfusion h
  | jwtCompact c2 k2 ih =>
    intro h
    injection h with hc hk
    subst hc
    exact ih hk

/-- Claim C1 (code_bug): the claim states that for every user id, secret
and positive ttl, `ValidateJWT (MakeJWT u s ttl) s` succeeds and returns
`u` immediately after issuance.  The source keys verification with the
token string instead of the secret, so validation of a freshly issued
token fails with a signature error and yields `uuid.Nil` — at the very
input of the repository test `TestMakeAndVaidateJWT` (secret
`"super-secret"`, ttl one minute), which the code therefore fails. -/
theorem validateJWT_rejects_fresh_token :
    ValidateJWT (MakeJWT ⟨1⟩ "super-secret" minuteNs 0) "super-secret" 0 =
      (UUID.nil, some GoError.jwtSignatureInvalid) := by
  decide

/-- Claim C2 (code_bug): the claim requires verification to be keyed by
the issuance secret and never to substitute the token string itself as
the key.  The source substitutes exactly that: the outcome of
`ValidateJWT` is the same signature-invalid failure whether the wrong
secret or the correct issuance secret is supplied, at the input of the
repository test `TestJWTWrongSecret`. -/
theorem validateJWT_ignores_secret :
    ValidateJWT (MakeJWT ⟨1⟩ "right-secret" minuteNs 0) "wrong-secret" 0 =
        (UUID.nil, some GoError.jwtSignatureInvalid) ∧
      ValidateJWT (MakeJWT ⟨1⟩ "right-secret" minuteNs 0) "right-secret" 0 =
        (UUID.nil, some GoError.jwtSignatureInvalid) := by
  constructor <;> decide

/-- Claim C10 (confirmed): whenever `ValidateJWT` returns an error, the
UUID component of its result is exactly `uuid.Nil`; equivalently, a
non-nil identifier is only ever returned together with a nil error. -/
theorem validateJWT_error_yields_nil_uuid
    (tokenString : GoStr) (tokenSecret : String) (now : Int) (e : GoError)
    (h : (ValidateJWT tokenString tokenSecret now).2 = some e) :
    (ValidateJWT tokenString tokenSecret now).1 = UUID.nil := by
  unfold ValidateJWT at *
  cases hp : parseWithClaims tokenString tokenString now with
  | error e2 => simp [hp]
  | ok claims =>
    simp [hp] at h ⊢
    cases hu : uuidParse claims.subject with
    | none => simp [hu]
    | some u => simp [hu] at h

/-- Concrete instantiation of `validateJWT_error_yields_nil_uuid` at a
freshly issued token, whose validation errors out. -/
theorem validateJWT_error_yields_nil_uuid_witness :
    (ValidateJWT (MakeJWT ⟨1⟩ "s" minuteNs 0) "s" 0).2 =
        some GoError.jwtSignatureInvalid ∧
      (ValidateJWT (MakeJWT ⟨1⟩ "s" minuteNs 0) "s" 0).1 = UUID.nil :=
  ⟨by decide,
   validateJWT_error_yields_nil_uuid (MakeJWT ⟨1⟩ "s" minuteNs 0) "s" 0
     GoError.jwtSignatureInvalid (by decide)⟩

/-- Claim C3 (code_bug): the claim states that once revocation succeeds,
every later refresh attempt fails and no new access token is produced.
The boolean precedence in main.go line 310 rejects only tokens that are
NOT revoked AND expired, so a revoked, still-unexpired token sails
through: here revocation at time 50 visibly sets revoked_at, yet a
refresh at time 60 (before the expiry 100) still mints a fresh access
token. -/
theorem revoked_token_still_refreshes :
    getRefreshToken (handleRevoke db0 "tok" 50).2 "tok" =
        some { userId := some ⟨1⟩, createdAt := 0, updatedAt := 50,
               expiresAt := 100, revokedAt := some 50 } ∧
      (handleRefresh (handleRevoke db0 "tok" 50).2 "tok" "sec" 60).1 =
        Response.refreshOk (MakeJWT ⟨1⟩ "sec" hourNs 60) := by
  constructor <;> decide

/-- Claim C4 counterexample: with `expires_in_seconds` supplied as 0,
the claim says the TTL is one hour and never non-positive, but the code
takes any requested duration strictly smaller than one hour, yielding a
zero TTL. -/
theorem computeExpires_zero_counterexample :
    computeExpires (some 0) = 0 ∧
      claimedLoginTTL (some 0) = hourNs ∧
      computeExpires (some 0) ≠ claimedLoginTTL (some 0) := by
  refine ⟨by decide, by decide, by decide⟩

/-- Claim C4 as amended: for every request, the issued TTL equals
min(requested duration, 1 hour) whenever `expires_in_seconds` is
supplied — with no positivity guard, so zero and negative requests give
a non-positive TTL — and 1 hour when it is absent. -/
theorem computeExpires_eq_amended (r : Option Int) :
    computeExpires r = amendedLoginTTL r := by
  cases r with
  | none => rfl
  | some k =>
    simp only [computeExpires, amendedLoginTTL]
    by_cases h : durationFromSeconds k < hourNs
    · simp [h, min_eq_left h.le]
    · simp [h, min_eq_right (not_lt.mp h)]

/-- The TTL computed by `handleLogin` never exceeds one hour. -/
theorem computeExpires_le_hour (r : Option Int) : computeExpires r ≤ hourNs := by
  cases r with
  | none => exact le_refl _
  | some k =>
    simp only [computeExpires]
    by_cases h : durationFromSeconds k < hourNs
    · simp [h, h.le]
    · simp [h]

/-- Claim C5 (confirmed): `handleRefresh` returns the database unchanged
on every path — it does not rotate the token string, extend expires_at,
or touch revoked_at — and whenever it succeeds, the minted access token
is exactly a fresh JWT for the resolved owner with the default one-hour
TTL. -/
theorem handleRefresh_preserves_db (db : DB) (tok jwtSecret : String) (now : Int) :
    (handleRefresh db tok jwtSecret now).2 = db ∧
      ∀ t, (handleRefresh db tok jwtSecret now).1 = Response.refreshOk t →
        ∃ u, getUserFromRefreshToken db tok = some u ∧
          t = MakeJWT u.id jwtSecret hourNs now := by
  constructor
  · unfold handleRefresh
    split
    · rfl
    · split
      · rfl
      · split
        · rfl
        · rfl
  · intro t ht
    unfold handleRefresh at ht
    split at ht
    · exact absurd ht (by simp)
    · rename_i user hu
      split at ht
      · exact absurd ht (by simp)
      · rename_i row hr
        split at ht
        · exact absurd ht (by simp)
        · simp only [Response.refreshOk.injEq] at ht
          exact ⟨user, hu, ht.symm⟩

/-- Concrete instantiation of `handleRefresh_preserves_db`: on `db0` a
refresh of the live token "tok" succeeds and the minted token is the
owner's fresh one-hour JWT, while the state is unchanged. -/
theorem handleRefresh_preserves_db_witness :
    (handleRefresh db0 "tok" "sec" 10).2 = db0 ∧
      ∃ u, getUserFromRefreshToken db0 "tok" = some u ∧
        MakeJWT ⟨1⟩ "sec" hourNs 10 = MakeJWT u.id "sec" hourNs 10 :=
  ⟨(handleRefresh_preserves_db db0 "tok" "sec" 10).1,
   (handleRefresh_preserves_db db0 "tok" "sec" 10).2
     (MakeJWT ⟨1⟩ "sec" hourNs 10) (by decide)⟩

/-- Claim C6 (confirmed): whenever login succeeds, the stored
refresh-token row is keyed by the returned refresh token and carries
expires_at = issuance time + 60 days with null revoked_at, and the
returned access token expires at most one hour after issuance. -/
theorem handleLogin_persists_refresh_row
    (db : DB) (req : LoginRequest) (rt jwtSecret : String) (now : Int)
    (uid : UUID) (email : String) (tok : GoStr) (rtok : String)
    (h : (handleLogin db req rt jwtSecret now).1 =
      Response.loginOk uid email tok rtok) :
    getRefreshToken (handleLogin db req rt jwtSecret now).2 rtok =
        some { userId := some uid, createdAt := now, updatedAt := now,
               expiresAt := now + day60Ns, revokedAt := none } ∧
      tokenExpiresAt tok ≤ now + hourNs := by
  unfold handleLogin at h ⊢
  split at h
  · exact absurd h (by simp)
  · rename_i user hu
    split at h
    · exact absurd h (by simp)
    · rename_i hp
      split at h
      · exact absurd h (by simp)
      · rename_i db2 hc
        simp only [Response.loginOk.injEq] at h
        obtain ⟨h1, _, h3, h4⟩ := h
        subst h1; subst h3; subst h4
        constructor
        · unfold createRefreshToken at hc
          split at hc
          · exact absurd hc (by simp)
          · simp only [Option.some.injEq] at hc
            subst hc
            rw [if_neg hp]
            simp [getRefreshToken, List.find?]
        · have hexp : tokenExpiresAt
              (MakeJWT user.id jwtSecret (computeExpires req.expiresInSeconds) now) =
              now + computeExpires req.expiresInSeconds := rfl
          rw [hexp]
          have hle := computeExpires_le_hour req.expiresInSeconds
          omega

/-- Concrete instantiation of `handleLogin_persists_refresh_row`: a
login on `db0` with the correct password and no requested TTL stores a
60-day, unrevoked refresh row and issues a one-hour token. -/
theorem handleLogin_persists_refresh_row_witness :
    (handleLogin db0 ⟨"a@x.com", "right", none⟩ "rt1" "sec" 0).1 =
        Response.loginOk ⟨1⟩ "a@x.com" (MakeJWT ⟨1⟩ "sec" hourNs 0) "rt1" ∧
      (getRefreshToken (handleLogin db0 ⟨"a@x.com", "right", none⟩ "rt1" "sec" 0).2 "rt1" =
          some { userId := some ⟨1⟩, createdAt := 0, updatedAt := 0,
                 expiresAt := 0 + day60Ns, revokedAt := none } ∧
        tokenExpiresAt (MakeJWT ⟨1⟩ "sec" hourNs 0) ≤ 0 + hourNs) :=
  ⟨by decide,
   handleLogin_persists_refresh_row db0 ⟨"a@x.com", "right", none⟩ "rt1" "sec" 0
     ⟨1⟩ "a@x.com" (MakeJWT ⟨1⟩ "sec" hourNs 0) "rt1" (by decide)⟩

/-- Claim C8 (confirmed): a login with an unknown email and a login with
a known email but wrong password produce the identical externally
visible error — the same 401 status with the same message — in any
states, at any times, with any secrets. -/
theorem login_failures_indistinguishable
    (db1 db2 : DB) (req1 req2 : LoginRequest) (rt1 rt2 s1 s2 : String)
    (now1 now2 : Int) (u : User)
    (h1 : getUserByEmail db1 req1.email = none)
    (h2 : getUserByEmail db2 req2.email = some u)
    (h3 : CheckPasswordHash req2.password u.hashedPassword = false) :
    (handleLogin db1 req1 rt1 s1 now1).1 =
        Response.err 401 "incorrect email or password" ∧
      (handleLogin db2 req2 rt2 s2 now2).1 =
        Response.err 401 "incorrect email or password" := by
  constructor
  · unfold handleLogin
    split
    · rfl
    · rename_i user huser
      rw [h1] at huser
      exact absurd huser (by simp)
  · unfold handleLogin
    split
    · rfl
    · rename_i user huser
      rw [h2] at huser
      obtain rfl : u = user := by simpa using huser
      rw [if_pos h3]

/-- Concrete instantiation of `login_failures_indistinguishable` on
`db0`: unknown email "b@x.com" and known email "a@x.com" with the wrong
password fail with the very same response. -/
theorem login_failures_indistinguishable_witness :
    getUserByEmail db0 "b@x.com" = none ∧
      getUserByEmail db0 "a@x.com" = some userA ∧
      ((handleLogin db0 ⟨"b@x.com", "right", none⟩ "r1" "s" 0).1 =
          Response.err 401 "incorrect email or password" ∧
        (handleLogin db0 ⟨"a@x.com", "wrong", none⟩ "r2" "s" 0).1 =
          Response.err 401 "incorrect email or password") :=
  ⟨by decide, by decide,
   login_failures_indistinguishable db0 db0 ⟨"b@x.com", "right", none⟩
     ⟨"a@x.com", "wrong", none⟩ "r1" "r2" "s" "s" 0 0 userA
     (by decide) (by decide) (by decide)⟩

/-- Claim C9 (confirmed): for an existing chirp, the delete handler
answers 403 Forbidden (leaving the store unchanged) exactly when the
stored owner differs from the authenticated requester, and deletes the
chirp with 204 when they coincide; absence alone yields 404, so an
ownership mismatch is never reported as NotFound. -/
theorem chirp_delete_ownership
    (db : DB) (chirpID userID : UUID) (chirp : ChirpRow)
    (h : getChirp db chirpID = some chirp) :
    (chirp.userId ≠ userID →
        handleChirpDelete db chirpID userID = (Response.err 403 "forbidden", db)) ∧
      (chirp.userId = userID →
        handleChirpDelete db chirpID userID =
          (Response.noContent, deleteChirp db chirpID)) := by
  unfold handleChirpDelete
  constructor
  · intro hne
    split
    · rename_i hnone
      rw [h] at hnone
      exact absurd hnone (by simp)
    · rename_i c hc2
      rw [h] at hc2
      obtain rfl : chirp = c := by simpa using hc2
      rw [if_pos hne]
  · intro heq
    split
    · rename_i hnone
      rw [h] at hnone
      exact absurd hnone (by simp)
    · rename_i c hc2
      rw [h] at hc2
      obtain rfl : chirp = c := by simpa using hc2
      rw [if_neg (fun hne2 => hne2 heq)]

/-- Concrete instantiation of `chirp_delete_ownership`: requester ⟨2⟩
attempting to delete the chirp owned by ⟨1⟩ on `db0` gets 403 Forbidden,
not 404. -/
theorem chirp_delete_ownership_witness :
    getChirp db0 ⟨10⟩ = some chirp0 ∧
      handleChirpDelete db0 ⟨10⟩ ⟨2⟩ = (Response.err 403 "forbidden", db0) :=
  ⟨by decide,
   (chirp_delete_ownership db0 ⟨10⟩ ⟨2⟩ chirp0 (by decide)).1 (by decide)⟩

/-- Claim C7 counterexample: the header value "ApiKey " (exactly two
space-separated parts with an empty key) makes the code return the empty
key successfully, while the claim demands a MalformedCredential
failure. -/
theorem getAPIKey_empty_key_counterexample :
    GetAPIKey [("Authorization", "ApiKey ")] = Except.ok "" ∧
      GetAPIKeyClaimed [("Authorization", "ApiKey ")] =
        Except.error CredError.malformed := by
  exact ⟨rfl, rfl⟩

/-- Claim C7 as amended: for every header map, `GetAPIKey` fails with
MissingCredential when the Authorization header is absent (or empty),
fails with MalformedCredential when the value is not exactly two
single-space-separated tokens with the exact case-sensitive scheme
"ApiKey", and otherwise returns the whitespace-trimmed key — which may
be the empty string. -/
theorem getAPIKey_eq_amended (headers : List (String × String)) :
    GetAPIKey headers = GetAPIKeyAmended headers := by
  unfold GetAPIKey GetAPIKeyAmended
  cases h0 : headerGet headers "Authorization" == "" with
  | true => simp [h0]
  | false =>
    simp only [h0, Bool.false_eq_true, if_false]
    cases hs : splitSpace (headerGet headers "Authorization") with
    | nil => simp
    | cons a tl =>
      cases tl with
      | nil => simp
      | cons b tl2 =>
        cases tl2 with
        | nil =>
          cases ha : a == "ApiKey" with
          | true =>
            have : a = "ApiKey" := by simpa using ha
            simp [this]
          | false =>
            have : ¬ a = "ApiKey" := by simpa using ha
            simp [ha, this]
        | cons c tl3 => simp [List.length]

end Chirpy
